import Mathlib

/-!
Verification of the pizza order-management backend.

The development shallowly embeds the order endpoints of the service
(app/api/v1/endpoints/order/router.py and crud.py, together with the
stock-ledger functions in stock_logic/) as pure Lean functions over an
explicit relational state, and proves or refutes the specified
properties about them.

Machine integers of the source (stock counters, quantities) are
embedded as Int; prices as Rat; row identifiers as Nat. The database
is embedded relationally: orders, pizza rows and beverage-quantity
rows are lists, and the per-ingredient stock counters are functions
from identifiers to Int.
-/

/-- Order lifecycle labels. The enumeration itself lives in
app/database/models.py, which is not part of the sources here; the
label set is taken from the specification (TRANSMITTED initial state,
COMPLETED terminal-by-convention). Only equality on labels matters to
the embedded operations. -/
inductive OrderStatus where
  | TRANSMITTED
  | PREPARING
  | IN_DELIVERY
  | COMPLETED
deriving DecidableEq, Repr

/-- A (topping, required quantity) pair of a pizza type. -/
structure ToppingQuantity where
  topping_id : Nat
  quantity : Int
deriving DecidableEq, Repr

/-- A pizza type: dough reference, topping-quantity list, price. -/
structure PizzaType where
  id : Nat
  price : Rat
  dough_id : Nat
  toppings : List ToppingQuantity
deriving DecidableEq, Repr

/-- A beverage of the catalog (only the price is observable here). -/
structure Beverage where
  id : Nat
  price : Rat
deriving DecidableEq, Repr

/-- A pizza row: one produced pizza inside an order. The pizza_type
field embeds the ORM relationship pizza.pizza_type; referential
integrity of the store guarantees the referenced type exists, so the
row carries it directly. -/
structure PizzaRow where
  id : Nat
  order_id : Nat
  pizza_type : PizzaType
deriving DecidableEq, Repr

/-- An OrderBeverageQuantity row: composite key (order, beverage)
with a quantity. -/
structure BeverageLineRow where
  order_id : Nat
  beverage_id : Nat
  quantity : Int
deriving DecidableEq, Repr

/-- An order row (the embedded operations observe only id and status;
user and address are opaque reference data). -/
structure OrderRow where
  id : Nat
  status : OrderStatus
deriving DecidableEq, Repr

/-- Immutable catalog reference data: lookup of pizza types and
beverages by id (None when absent), and user existence. -/
structure Catalog where
  pizza_types : Nat → Option PizzaType
  beverages : Nat → Option Beverage
  users : Nat → Bool

/-- The mutable database state: stock counters for doughs, toppings
and beverages, the order / pizza / beverage-line tables, and the
fresh-id counter standing for uuid generation. -/
structure State where
  dough_stock : Nat → Int
  topping_stock : Nat → Int
  beverage_stock : Nat → Int
  orders : List OrderRow
  pizzas : List PizzaRow
  beverage_lines : List BeverageLineRow
  next_id : Nat

/-! ## Stock ledger (stock_logic/stock_ingredients_crud.py) -/

/-- Embeds ingredients_are_available: false when the dough stock of
the pizza type equals zero, false when some topping stock is below its
required quantity, true otherwise. -/
def ingredients_are_available (s : State) (pt : PizzaType) : Bool :=
  if s.dough_stock pt.dough_id = 0 then false
  else pt.toppings.all fun tq => !(decide (s.topping_stock tq.topping_id < tq.quantity))

/-- Embeds reduce_stock_of_ingredients: decrement the dough stock by
one and each topping stock by its required quantity, unconditionally. -/
def reduce_stock_of_ingredients (s : State) (pt : PizzaType) : State :=
  { s with
    dough_stock := fun d => if d = pt.dough_id then s.dough_stock d - 1 else s.dough_stock d
    topping_stock := pt.toppings.foldl
      (fun f tq => fun t => if t = tq.topping_id then f t - tq.quantity else f t)
      s.topping_stock }

/-- Embeds increase_stock_of_ingredients: increment the dough stock by
one and each topping stock by its required quantity, unconditionally. -/
def increase_stock_of_ingredients (s : State) (pt : PizzaType) : State :=
  { s with
    dough_stock := fun d => if d = pt.dough_id then s.dough_stock d + 1 else s.dough_stock d
    topping_stock := pt.toppings.foldl
      (fun f tq => fun t => if t = tq.topping_id then f t + tq.quantity else f t)
      s.topping_stock }

/-- Modelled from the spec: stock_beverage_crud.py is not among the
sources (only its tests and callers are). Per the specification,
beverage_is_available(beverageId, quantity) is true iff the beverage
stock is at least the requested quantity. -/
def beverage_is_available (s : State) (bid : Nat) (qty : Int) : Bool :=
  decide (qty ≤ s.beverage_stock bid)

/-- Modelled from the spec: stock_beverage_crud.py is not among the
sources. Per the specification, change_stock_of_beverage applies
stock += delta, returning failure with no mutation when the resulting
stock would go below zero, and committing otherwise. Failure is
encoded as none (the caller keeps the unchanged state), success as
some of the updated state. -/
def change_stock_of_beverage (s : State) (bid : Nat) (delta : Int) : Option State :=
  if s.beverage_stock bid + delta < 0 then none
  else some { s with
    beverage_stock := fun b =>
      if b = bid then s.beverage_stock b + delta else s.beverage_stock b }

/-! ## Order crud helpers (order/crud.py) -/

/-- Embeds the query-first-then-delete pattern of the crud delete
functions: delete the first row matched by the predicate, returning
none (and the table untouched) when no row matches. -/
def db_delete_first {α : Type} (p : α → Bool) : List α → Option (List α)
  | [] => none
  | x :: xs => if p x then some xs else (db_delete_first p xs).map (x :: ·)

/-- Embeds crud create_pizza + add_pizza_to_order: insert a pizza row
for the order, its id drawn from the fresh-id counter. -/
def add_pizza_row (s : State) (oid : Nat) (pt : PizzaType) : State :=
  { s with pizzas := s.pizzas ++ [{ id := s.next_id, order_id := oid, pizza_type := pt }]
           next_id := s.next_id + 1 }

/-- Embeds crud delete_order_by_id: if the order row exists, delete it
together with its owned pizza rows and beverage-line rows (the owned
collections of the order cascade). The stock counters are NOT touched
by this crud-level delete. -/
def crud_delete_order_by_id (s : State) (oid : Nat) : State :=
  if s.orders.any (fun o => o.id == oid) then
    { s with
      orders := s.orders.filter (fun o => !(o.id == oid))
      pizzas := s.pizzas.filter (fun p => !(p.order_id == oid))
      beverage_lines := s.beverage_lines.filter (fun l => !(l.order_id == oid)) }
  else s

/-- Embeds crud update_beverage_quantity_of_order on the line table:
set the quantity of the first row with the given (order, beverage)
composite key, leaving the table unchanged when no row matches. -/
def update_first_line (oid bid : Nat) (q : Int) :
    List BeverageLineRow → List BeverageLineRow
  | [] => []
  | l :: rest =>
    if l.order_id == oid && l.beverage_id == bid then { l with quantity := q } :: rest
    else l :: update_first_line oid bid q rest

/-- Embeds crud get_orders_by_statuses: with no statuses (absent or
the empty list) return all orders, otherwise filter by membership of
the order status in the given list. -/
def get_orders_by_statuses (statuses : Option (List OrderStatus)) (s : State) :
    List OrderRow :=
  match statuses with
  | none => s.orders
  | some sts =>
    if sts.length > 0 then
      s.orders.filter (fun o => sts.any fun st => decide (o.status = st))
    else s.orders

/-- Embeds the beverage-price query loop of crud get_price_of_order:
accumulate price * quantity over the beverage lines of the order,
joined against the beverage catalog (a line whose beverage is absent
contributes nothing, as with the inner join). -/
def order_beverage_price (C : Catalog) (s : State) (oid : Nat) : Rat :=
  (s.beverage_lines.filter fun l => l.order_id == oid).foldl
    (fun acc l =>
      match C.beverages l.beverage_id with
      | some b => acc + b.price * (l.quantity : Rat)
      | none => acc) 0

/-- Embeds the pizza-price aggregate of crud get_price_of_order: the
SQL SUM over the prices of the pizza types of the order joined through
its pizza rows, which is NULL (none) when the order has no pizzas. -/
def order_pizza_price (s : State) (oid : Nat) : Option Rat :=
  match s.pizzas.filter fun p => p.order_id == oid with
  | [] => none
  | p :: rest => some ((p :: rest).foldl (fun acc q => acc + q.pizza_type.price) 0)

/-- Embeds crud get_price_of_order: beverage total plus, when the
pizza aggregate is truthy (neither NULL nor zero), the pizza total. -/
def get_price_of_order (C : Catalog) (s : State) (oid : Nat) : Rat :=
  match order_pizza_price s oid with
  | none => order_beverage_price C s oid
  | some pp =>
    if pp = 0 then order_beverage_price C s oid
    else order_beverage_price C s oid + pp

/-! ## Router operations (order/router.py) -/

/-- Outcome of an embedded endpoint call, standing for the HTTP
result classes the router produces. -/
inductive Outcome where
  | ok
  | notFound
  | conflict
  | invalid
  | redirect
deriving DecidableEq, Repr

/-- Embeds the router add_pizza_to_order endpoint: order lookup,
pizza-type lookup, availability check (Conflict on failure), then
reduce stock and insert the pizza row. -/
def router_add_pizza_to_order (C : Catalog) (s : State) (oid pizza_type_id : Nat) :
    Outcome × State :=
  match s.orders.find? (fun o => o.id == oid) with
  | none => (Outcome.notFound, s)
  | some _ =>
    match C.pizza_types pizza_type_id with
    | none => (Outcome.notFound, s)
    | some pt =>
      if ingredients_are_available s pt then
        let s1 := reduce_stock_of_ingredients s pt
        (Outcome.ok, add_pizza_row s1 oid pt)
      else (Outcome.conflict, s)

/-- Embeds the router delete_pizza_from_order endpoint: order lookup,
then an UNSCOPED pizza lookup by id, then increase_stock_of_ingredients
for the found pizza, and only then the order-scoped crud delete, whose
failure is reported as NotFound (after the stock was already
increased). -/
def router_delete_pizza_from_order (s : State) (oid pizza_id : Nat) :
    Outcome × State :=
  match s.orders.find? (fun o => o.id == oid) with
  | none => (Outcome.notFound, s)
  | some _ =>
    match s.pizzas.find? (fun p => p.id == pizza_id) with
    | none => (Outcome.notFound, s)
    | some p =>
      let s1 := increase_stock_of_ingredients s p.pizza_type
      match db_delete_first (fun q => q.order_id == oid && q.id == pizza_id) s1.pizzas with
      | some rest => (Outcome.ok, { s1 with pizzas := rest })
      | none => (Outcome.notFound, s1)

/-- Embeds the router create_order_beverage endpoint: order lookup,
positivity check on the quantity, beverage lookup, duplicate-line
check (redirect to the existing line), availability check, then
change_stock_of_beverage and insertion of the line. -/
def router_create_order_beverage (C : Catalog) (s : State) (oid bid : Nat) (qty : Int) :
    Outcome × State :=
  match s.orders.find? (fun o => o.id == oid) with
  | none => (Outcome.notFound, s)
  | some _ =>
    if qty ≤ 0 then (Outcome.invalid, s)
    else
      match C.beverages bid with
      | none => (Outcome.notFound, s)
      | some _ =>
        match s.beverage_lines.find? (fun l => l.order_id == oid && l.beverage_id == bid) with
        | some _ => (Outcome.redirect, s)
        | none =>
          if beverage_is_available s bid qty then
            let s1 := match change_stock_of_beverage s bid (-qty) with
                      | some s2 => s2
                      | none => s
            (Outcome.ok,
              { s1 with beverage_lines :=
                  s1.beverage_lines ++ [{ order_id := oid, beverage_id := bid, quantity := qty }] })
          else (Outcome.conflict, s)

/-- Embeds the router update_beverage_of_order endpoint: order lookup,
positivity check, line lookup, change_stock_of_beverage with
delta = oldQuantity - newQuantity (Conflict and no mutation on
failure), then the crud quantity update. -/
def router_update_beverage_of_order (s : State) (oid bid : Nat) (newq : Int) :
    Outcome × State :=
  match s.orders.find? (fun o => o.id == oid) with
  | none => (Outcome.notFound, s)
  | some _ =>
    if newq ≤ 0 then (Outcome.invalid, s)
    else
      match s.beverage_lines.find? (fun l => l.order_id == oid && l.beverage_id == bid) with
      | none => (Outcome.notFound, s)
      | some line =>
        match change_stock_of_beverage s bid (line.quantity - newq) with
        | none => (Outcome.conflict, s)
        | some s1 =>
          (Outcome.ok, { s1 with beverage_lines := update_first_line oid bid newq s1.beverage_lines })

/-- Embeds the router delete_beverage_from_order endpoint: order
lookup, scoped line lookup, change_stock_of_beverage restoring the
line quantity (its Boolean result ignored by the source), then the
crud line delete. -/
def router_delete_beverage_from_order (s : State) (oid bid : Nat) : Outcome × State :=
  match s.orders.find? (fun o => o.id == oid) with
  | none => (Outcome.notFound, s)
  | some _ =>
    match s.beverage_lines.find? (fun l => l.order_id == oid && l.beverage_id == bid) with
    | none => (Outcome.notFound, s)
    | some line =>
      let s1 := match change_stock_of_beverage s bid line.quantity with
                | some s2 => s2
                | none => s
      match db_delete_first (fun l => l.order_id == oid && l.beverage_id == bid) s1.beverage_lines with
      | some rest => (Outcome.ok, { s1 with beverage_lines := rest })
      | none => (Outcome.ok, s1)

/-- Embeds the router delete_order endpoint: order lookup, restore the
ingredient stock of every pizza of the order and the beverage stock of
every line, then the crud order delete (cascading the owned rows). -/
def router_delete_order (s : State) (oid : Nat) : Outcome × State :=
  match s.orders.find? (fun o => o.id == oid) with
  | none => (Outcome.notFound, s)
  | some _ =>
    let s1 := (s.pizzas.filter fun p => p.order_id == oid).foldl
      (fun st p => increase_stock_of_ingredients st p.pizza_type) s
    let s2 := (s.beverage_lines.filter fun l => l.order_id == oid).foldl
      (fun st l => match change_stock_of_beverage st l.beverage_id l.quantity with
                   | some st2 => st2
                   | none => st) s1
    (Outcome.ok, crud_delete_order_by_id s2 oid)

/-- Embeds the pizza-copy loop of the router create_order endpoint:
for each pizza of the template, check availability (aborting with the
state as consumed so far on failure), then insert the copied pizza row
and reduce the ingredient stock. -/
def copy_pizzas (oid : Nat) : List PizzaRow → State → Except State State
  | [], s => Except.ok s
  | p :: rest, s =>
    if ingredients_are_available s p.pizza_type then
      copy_pizzas oid rest (reduce_stock_of_ingredients (add_pizza_row s oid p.pizza_type) p.pizza_type)
    else Except.error s

/-- Embeds the beverage-copy loop of the router create_order endpoint:
for each line of the template, change_stock_of_beverage by minus its
quantity (aborting with the state as consumed so far on failure), then
insert the copied line. -/
def copy_beverages (oid : Nat) : List BeverageLineRow → State → Except State State
  | [], s => Except.ok s
  | l :: rest, s =>
    match change_stock_of_beverage s l.beverage_id (-l.quantity) with
    | none => Except.error s
    | some s1 =>
      copy_beverages oid rest
        { s1 with beverage_lines :=
            s1.beverage_lines ++ [{ order_id := oid, beverage_id := l.beverage_id, quantity := l.quantity }] }

/-- Embeds the router create_order endpoint: user check, creation of
the new (empty, TRANSMITTED) order, and, when a template id is given,
lookup of the template (crud-deleting the new order on failure) and
the two copy loops; a copy failure crud-deletes the new order and
reports Conflict. -/
def router_create_order (C : Catalog) (s : State) (user_id : Nat)
    (copy_order_id : Option Nat) : Outcome × State :=
  if !(C.users user_id) then (Outcome.notFound, s)
  else
    let oid := s.next_id
    let s0 : State :=
      { s with orders := s.orders ++ [{ id := oid, status := OrderStatus.TRANSMITTED }]
               next_id := s.next_id + 1 }
    match copy_order_id with
    | none => (Outcome.ok, s0)
    | some cid =>
      match s0.orders.find? (fun o => o.id == cid) with
      | none => (Outcome.notFound, crud_delete_order_by_id s0 oid)
      | some _ =>
        match copy_pizzas oid (s0.pizzas.filter fun p => p.order_id == cid) s0 with
        | Except.error sf => (Outcome.conflict, crud_delete_order_by_id sf oid)
        | Except.ok s1 =>
          match copy_beverages oid (s1.beverage_lines.filter fun l => l.order_id == cid) s1 with
          | Except.error sf => (Outcome.conflict, crud_delete_order_by_id sf oid)
          | Except.ok s2 => (Outcome.ok, s2)

/-! ## Concrete fixtures

States and catalogs used to instantiate the theorems on concrete
inputs and to evaluate the endpoints at the inputs where the source
diverges from its specification. -/

/-- An order row used by the concrete fixtures. -/
def ordW : OrderRow := { id := 0, status := OrderStatus.TRANSMITTED }

/-- A beverage line of quantity 3 over beverage 3. -/
def lineW6 : BeverageLineRow := { order_id := 0, beverage_id := 3, quantity := 3 }

/-- A state with one order and the beverage line lineW6, beverage
stock 7 throughout. -/
def stW6 : State :=
  { dough_stock := fun _ => 0
    topping_stock := fun _ => 0
    beverage_stock := fun _ => 7
    orders := [ordW]
    pizzas := []
    beverage_lines := [lineW6]
    next_id := 9 }

/-- A beverage of the concrete catalog. -/
def bevW8 : Beverage := { id := 3, price := 2 }

/-- A catalog holding exactly the beverage bevW8. -/
def catW8 : Catalog :=
  { pizza_types := fun _ => none
    beverages := fun i => if i = 3 then some bevW8 else none
    users := fun _ => true }

/-- A beverage line of quantity 2 over beverage 3. -/
def lineW8 : BeverageLineRow := { order_id := 0, beverage_id := 3, quantity := 2 }

/-- A state with one order and the beverage line lineW8, beverage
stock 5 throughout. -/
def stW8 : State :=
  { dough_stock := fun _ => 0
    topping_stock := fun _ => 0
    beverage_stock := fun _ => 5
    orders := [ordW]
    pizzas := []
    beverage_lines := [lineW8]
    next_id := 9 }

/-- A pizza type with no toppings over dough 0. -/
def ptPlain : PizzaType := { id := 7, price := 5, dough_id := 0, toppings := [] }

/-- A pizza type over dough 0 requiring 2 units of topping 0. -/
def ptTopped : PizzaType := { id := 9, price := 10, dough_id := 0, toppings := [⟨0, 2⟩] }

/-- Two orders (0 and 1), order 1 holding one pizza of ptTopped;
dough and topping stock 5 throughout. -/
def stateC3 : State :=
  { dough_stock := fun _ => 5
    topping_stock := fun _ => 5
    beverage_stock := fun _ => 0
    orders := [{ id := 0, status := OrderStatus.TRANSMITTED },
               { id := 1, status := OrderStatus.TRANSMITTED }]
    pizzas := [{ id := 10, order_id := 1, pizza_type := ptTopped }]
    beverage_lines := []
    next_id := 20 }

/-- A catalog holding exactly the pizza type ptPlain under id 7. -/
def catC1 : Catalog :=
  { pizza_types := fun i => if i = 7 then some ptPlain else none
    beverages := fun _ => none
    users := fun _ => true }

/-- Two empty orders (0 and 1), dough and topping stock 5. -/
def stateC1 : State :=
  { dough_stock := fun _ => 5
    topping_stock := fun _ => 5
    beverage_stock := fun _ => 0
    orders := [{ id := 0, status := OrderStatus.TRANSMITTED },
               { id := 1, status := OrderStatus.TRANSMITTED }]
    pizzas := []
    beverage_lines := []
    next_id := 30 }

/-- stateC1 after the endpoint added one ptPlain pizza to order 1. -/
def stateC1add : State := (router_add_pizza_to_order catC1 stateC1 1 7).2

/-- A template order (id 1) holding two pizzas of ptPlain, with dough
stock 1: enough for the first copy but not the second. -/
def stateC2 : State :=
  { dough_stock := fun _ => 1
    topping_stock := fun _ => 5
    beverage_stock := fun _ => 0
    orders := [{ id := 1, status := OrderStatus.TRANSMITTED }]
    pizzas := [{ id := 10, order_id := 1, pizza_type := ptPlain },
               { id := 11, order_id := 1, pizza_type := ptPlain }]
    beverage_lines := []
    next_id := 50 }

/-- An empty catalog with every user present. -/
def catC2 : Catalog :=
  { pizza_types := fun _ => none
    beverages := fun _ => none
    users := fun _ => true }

/-! ## Helper lemmas -/

/-- Folding addition of a mapped value equals the accumulator plus the
sum of the mapped list. -/
theorem foldl_add_map {α : Type} (f : α → Rat) :
    ∀ (l : List α) (acc : Rat),
      l.foldl (fun a x => a + f x) acc = acc + (l.map f).sum
  | [], acc => by simp
  | x :: xs, acc => by
    simp only [List.foldl_cons, List.map_cons, List.sum_cons]
    rw [foldl_add_map f xs, add_assoc]

/-- The beverage-price fold of the pricing query equals the
accumulator plus the sum of per-line prices, where an absent beverage
contributes zero (inner-join semantics). -/
theorem beverage_fold_sum (C : Catalog) :
    ∀ (rows : List BeverageLineRow) (acc : Rat),
      rows.foldl
        (fun acc r =>
          match C.beverages r.beverage_id with
          | some b => acc + b.price * (r.quantity : Rat)
          | none => acc) acc
      = acc +
        (rows.map fun r =>
          ((C.beverages r.beverage_id).elim 0 Beverage.price) * (r.quantity : Rat)).sum
  | [], acc => by simp
  | r :: rest, acc => by
    simp only [List.foldl_cons, List.map_cons, List.sum_cons]
    cases hcb : C.beverages r.beverage_id with
    | none => rw [beverage_fold_sum C rest acc]; simp [hcb]
    | some b => rw [beverage_fold_sum C rest (acc + b.price * (r.quantity : Rat))]
                simp [hcb, add_assoc]

/-- Updating the quantity of the first line with a composite key, then
searching for that key, yields the found line with its quantity set. -/
theorem find_update_first_line (oid bid : Nat) (q : Int) :
    ∀ (ls : List BeverageLineRow),
      (update_first_line oid bid q ls).find?
          (fun l => l.order_id == oid && l.beverage_id == bid)
        = (ls.find? (fun l => l.order_id == oid && l.beverage_id == bid)).map
            (fun l => { l with quantity := q })
  | [] => by simp [update_first_line]
  | l :: rest => by
    by_cases h : (l.order_id == oid && l.beverage_id == bid) = true
    · simp [update_first_line, h, List.find?]
    · rw [update_first_line]
      rw [if_neg h]
      rw [List.find?]
      rw [List.find?]
      simp only [h]
      exact find_update_first_line oid bid q rest

/-- List-membership form of the SQL IN predicate used by the status
filter. -/
theorem any_decide_eq_mem :
    ∀ (sts : List OrderStatus) (a : OrderStatus),
      (sts.any fun st => decide (a = st)) = decide (a ∈ sts)
  | [], a => by simp
  | x :: xs, a => by
    simp only [List.any_cons, List.mem_cons]
    rw [any_decide_eq_mem xs a]
    by_cases h1 : a = x <;> by_cases h2 : a ∈ xs <;> simp [h1, h2]

/-! ## Claim C4: specification of the ingredient availability check -/

/-- C4: for every pizza type whose dough stock is non-negative (the
data-model invariant on stock counters), ingredients_are_available
returns true iff the dough stock is strictly positive and every
topping-quantity of the type has topping stock at least its required
quantity. The check is read-only by construction: it is a function of
the state producing only a Bool. -/
theorem ingredients_are_available_spec (s : State) (pt : PizzaType)
    (hd : 0 ≤ s.dough_stock pt.dough_id) :
    ingredients_are_available s pt = true ↔
      (0 < s.dough_stock pt.dough_id ∧
        ∀ tq ∈ pt.toppings, tq.quantity ≤ s.topping_stock tq.topping_id) := by
  unfold ingredients_are_available
  by_cases h : s.dough_stock pt.dough_id = 0
  · simp only [h, if_true]
    constructor
    · intro hfalse; exact absurd hfalse (by simp)
    · rintro ⟨hpos, -⟩; omega
  · simp only [h, if_false, List.all_eq_true, Bool.not_eq_true',
      decide_eq_false_iff_not, not_lt]
    constructor
    · intro hall; exact ⟨lt_of_le_of_ne hd (Ne.symm h), hall⟩
    · rintro ⟨-, hall⟩; exact hall

/-- Concrete instantiation of ingredients_are_available_spec. -/
theorem ingredients_are_available_spec_witness :
    (0 : Int) ≤ 5 ∧
      (ingredients_are_available
          { dough_stock := fun _ => 5, topping_stock := fun _ => 4,
            beverage_stock := fun _ => 0, orders := [], pizzas := [],
            beverage_lines := [], next_id := 0 }
          { id := 1, price := 10, dough_id := 0, toppings := [⟨0, 2⟩] } = true ↔
        (0 < (5 : Int) ∧
          ∀ tq ∈ [(⟨0, 2⟩ : ToppingQuantity)], tq.quantity ≤ (4 : Int))) :=
  ⟨by decide,
    ingredients_are_available_spec
      { dough_stock := fun _ => 5, topping_stock := fun _ => 4,
        beverage_stock := fun _ => 0, orders := [], pizzas := [],
        beverage_lines := [], next_id := 0 }
      { id := 1, price := 10, dough_id := 0, toppings := [⟨0, 2⟩] }
      (by decide)⟩

/-! ## Claim C5: bounded decrement of beverage stock -/

/-- C5: with a non-negative current stock, change_stock_of_beverage
fails (none: no mutation) exactly when delta is a decrement larger in
magnitude than the current stock; otherwise it succeeds, the stock of
the beverage changes by exactly delta, no other beverage stock
changes, and the result never goes below zero. -/
theorem change_stock_of_beverage_spec (s : State) (bid : Nat) (delta : Int)
    (h0 : 0 ≤ s.beverage_stock bid) :
    (delta < 0 ∧ s.beverage_stock bid < -delta →
      change_stock_of_beverage s bid delta = none) ∧
    (-delta ≤ s.beverage_stock bid ∨ 0 ≤ delta →
      ∃ s2, change_stock_of_beverage s bid delta = some s2 ∧
        s2.beverage_stock bid = s.beverage_stock bid + delta ∧
        0 ≤ s2.beverage_stock bid ∧
        ∀ b, b ≠ bid → s2.beverage_stock b = s.beverage_stock b) := by
  constructor
  · rintro ⟨hneg, hbig⟩
    unfold change_stock_of_beverage
    rw [if_pos (by omega)]
  · intro hok
    unfold change_stock_of_beverage
    rw [if_neg (by omega)]
    refine ⟨_, rfl, by simp, by simp; omega, ?_⟩
    intro b hb
    simp [hb]

/-- Concrete instantiation of change_stock_of_beverage_spec. -/
theorem change_stock_of_beverage_spec_witness :
    (0 : Int) ≤ 10 ∧
      (((-3 : Int) < 0 ∧ (10 : Int) < -(-3) →
        change_stock_of_beverage
          { dough_stock := fun _ => 0, topping_stock := fun _ => 0,
            beverage_stock := fun _ => 10, orders := [], pizzas := [],
            beverage_lines := [], next_id := 0 } 7 (-3) = none) ∧
      (-(-3 : Int) ≤ 10 ∨ (0 : Int) ≤ -3 →
        ∃ s2, change_stock_of_beverage
            { dough_stock := fun _ => 0, topping_stock := fun _ => 0,
              beverage_stock := fun _ => 10, orders := [], pizzas := [],
              beverage_lines := [], next_id := 0 } 7 (-3) = some s2 ∧
          s2.beverage_stock 7 = 10 + (-3) ∧
          0 ≤ s2.beverage_stock 7 ∧
          ∀ b, b ≠ 7 → s2.beverage_stock b = 10)) :=
  ⟨by decide,
    change_stock_of_beverage_spec
      { dough_stock := fun _ => 0, topping_stock := fun _ => 0,
        beverage_stock := fun _ => 10, orders := [], pizzas := [],
        beverage_lines := [], next_id := 0 } 7 (-3) (by decide)⟩

/-! ## Claim C9: status filter semantics -/

/-- C9: with no statuses given (absent or the empty list) all orders
are returned; otherwise exactly the orders whose status is a member of
the given list are returned. -/
theorem get_orders_by_statuses_spec (statuses : Option (List OrderStatus)) (s : State) :
    ((statuses = none ∨ statuses = some []) →
      get_orders_by_statuses statuses s = s.orders) ∧
    (∀ sts, statuses = some sts → sts ≠ [] →
      get_orders_by_statuses statuses s
        = s.orders.filter fun o => decide (o.status ∈ sts)) := by
  constructor
  · rintro (rfl | rfl) <;> simp [get_orders_by_statuses]
  · rintro sts rfl hne
    have hlen : sts.length > 0 := List.length_pos.mpr hne
    simp only [get_orders_by_statuses, hlen, if_true]
    have hfun : (fun (o : OrderRow) => sts.any fun st => decide (o.status = st))
        = fun (o : OrderRow) => decide (o.status ∈ sts) :=
      funext fun o => any_decide_eq_mem sts o.status
    rw [hfun]

/-- Concrete instantiation of get_orders_by_statuses_spec. -/
theorem get_orders_by_statuses_spec_witness :
    (some [OrderStatus.TRANSMITTED] = some [OrderStatus.TRANSMITTED] ∧
      [OrderStatus.TRANSMITTED] ≠ []) ∧
    get_orders_by_statuses (some [OrderStatus.TRANSMITTED])
        { dough_stock := fun _ => 0, topping_stock := fun _ => 0,
          beverage_stock := fun _ => 0,
          orders := [{ id := 0, status := OrderStatus.TRANSMITTED },
                     { id := 1, status := OrderStatus.COMPLETED }],
          pizzas := [], beverage_lines := [], next_id := 2 }
      = ([{ id := 0, status := OrderStatus.TRANSMITTED },
          { id := 1, status := OrderStatus.COMPLETED }] : List OrderRow).filter
          (fun o => decide (o.status ∈ [OrderStatus.TRANSMITTED])) :=
  ⟨⟨rfl, by decide⟩,
    (get_orders_by_statuses_spec (some [OrderStatus.TRANSMITTED])
      { dough_stock := fun _ => 0, topping_stock := fun _ => 0,
        beverage_stock := fun _ => 0,
        orders := [{ id := 0, status := OrderStatus.TRANSMITTED },
                   { id := 1, status := OrderStatus.COMPLETED }],
        pizzas := [], beverage_lines := [], next_id := 2 }).2
      [OrderStatus.TRANSMITTED] rfl (by decide)⟩

/-! ## Claim C7: the pricing formula -/

/-- C7: the price of an order equals the sum over its beverage lines
of the referenced beverage price times the line quantity (an absent
beverage reference contributing nothing, as with the inner join) plus
the sum over its pizzas of the referenced pizza-type price. The
computation is a pure function of the catalog and state by
construction (it returns only a number), so it changes no stock and
repeated calls agree. -/
theorem get_price_of_order_formula (C : Catalog) (s : State) (oid : Nat) :
    get_price_of_order C s oid =
      ((s.beverage_lines.filter fun l => l.order_id == oid).map
        (fun l => ((C.beverages l.beverage_id).elim 0 Beverage.price) * (l.quantity : Rat))).sum
      + ((s.pizzas.filter fun p => p.order_id == oid).map fun p => p.pizza_type.price).sum := by
  have hbev : order_beverage_price C s oid =
      ((s.beverage_lines.filter fun l => l.order_id == oid).map
        (fun l => ((C.beverages l.beverage_id).elim 0 Beverage.price) * (l.quantity : Rat))).sum := by
    unfold order_beverage_price
    rw [beverage_fold_sum C _ 0, zero_add]
  unfold get_price_of_order order_pizza_price
  cases hf : s.pizzas.filter fun p => p.order_id == oid with
  | nil => simp [hbev]
  | cons p rest =>
    have hsum : (p :: rest).foldl (fun acc q => acc + q.pizza_type.price) 0
        = ((p :: rest).map fun q => q.pizza_type.price).sum := by
      rw [foldl_add_map (fun q : PizzaRow => q.pizza_type.price) (p :: rest) 0, zero_add]
    simp only [hsum]
    by_cases hz : ((p :: rest).map fun q => q.pizza_type.price).sum = 0
    · simp [hz, hbev]
    · simp [hz, hbev]

/-! ## Claim C10: the empty order prices to zero -/

/-- C10: an existing order with no pizza rows and no beverage-line
rows has price exactly zero (the NULL pizza aggregate is skipped by
the truthiness guard, and the beverage fold starts at zero). -/
theorem empty_order_price_zero (C : Catalog) (s : State) (oid : Nat)
    (hp : s.pizzas.filter (fun p => p.order_id == oid) = [])
    (hb : s.beverage_lines.filter (fun l => l.order_id == oid) = []) :
    get_price_of_order C s oid = 0 := by
  unfold get_price_of_order order_pizza_price order_beverage_price
  rw [hp, hb]
  simp

/-- Concrete instantiation of empty_order_price_zero. -/
theorem empty_order_price_zero_witness :
    (([] : List PizzaRow).filter (fun p => p.order_id == 0) = [] ∧
      ([] : List BeverageLineRow).filter (fun l => l.order_id == 0) = []) ∧
    get_price_of_order
        { pizza_types := fun _ => none, beverages := fun _ => none, users := fun _ => true }
        { dough_stock := fun _ => 0, topping_stock := fun _ => 0,
          beverage_stock := fun _ => 0,
          orders := [{ id := 0, status := OrderStatus.TRANSMITTED }],
          pizzas := [], beverage_lines := [], next_id := 1 }
        0 = 0 :=
  ⟨⟨rfl, rfl⟩,
    empty_order_price_zero
      { pizza_types := fun _ => none, beverages := fun _ => none, users := fun _ => true }
      { dough_stock := fun _ => 0, topping_stock := fun _ => 0,
        beverage_stock := fun _ => 0,
        orders := [{ id := 0, status := OrderStatus.TRANSMITTED }],
        pizzas := [], beverage_lines := [], next_id := 1 }
      0 rfl rfl⟩

/-! ## Claim C6: updateBeverageLine semantics -/

/-- C6: for an existing order with an existing beverage line and a new
quantity of at least one, the update computes delta = oldQuantity -
newQuantity and applies change_stock_of_beverage with it: when the
resulting stock would be negative the call reports Conflict and the
whole state (so in particular the line quantity) is unchanged;
otherwise the call succeeds, the beverage stock changes by exactly
delta, no other beverage stock changes, the line quantity becomes the
new quantity, and no other table changes. -/
theorem update_beverage_of_order_spec (s : State) (oid bid : Nat) (newq : Int)
    (ord : OrderRow) (line : BeverageLineRow)
    (hord : s.orders.find? (fun o => o.id == oid) = some ord)
    (hq : 1 ≤ newq)
    (hline : s.beverage_lines.find?
      (fun l => l.order_id == oid && l.beverage_id == bid) = some line) :
    (s.beverage_stock bid + (line.quantity - newq) < 0 →
      router_update_beverage_of_order s oid bid newq = (Outcome.conflict, s)) ∧
    (0 ≤ s.beverage_stock bid + (line.quantity - newq) →
      ∃ s2, router_update_beverage_of_order s oid bid newq = (Outcome.ok, s2) ∧
        s2.beverage_stock bid = s.beverage_stock bid + (line.quantity - newq) ∧
        (∀ b, b ≠ bid → s2.beverage_stock b = s.beverage_stock b) ∧
        s2.beverage_lines.find? (fun l => l.order_id == oid && l.beverage_id == bid)
          = some { line with quantity := newq } ∧
        s2.pizzas = s.pizzas ∧ s2.orders = s.orders ∧
        s2.dough_stock = s.dough_stock ∧ s2.topping_stock = s.topping_stock) := by
  have hstep : router_update_beverage_of_order s oid bid newq =
      match change_stock_of_beverage s bid (line.quantity - newq) with
      | none => (Outcome.conflict, s)
      | some s1 =>
        (Outcome.ok, { s1 with beverage_lines := update_first_line oid bid newq s1.beverage_lines }) := by
    unfold router_update_beverage_of_order
    rw [hord]
    rw [if_neg (by omega)]
    rw [hline]
  constructor
  · intro hfail
    rw [hstep]
    unfold change_stock_of_beverage
    rw [if_pos hfail]
  · intro hok
    rw [hstep]
    unfold change_stock_of_beverage
    rw [if_neg (by omega)]
    refine ⟨_, rfl, by simp, ?_, ?_, rfl, rfl, rfl, rfl⟩
    · intro b hb
      simp [hb]
    · show (update_first_line oid bid newq s.beverage_lines).find?
          (fun l => l.order_id == oid && l.beverage_id == bid)
        = some { line with quantity := newq }
      rw [find_update_first_line oid bid newq s.beverage_lines, hline]
      rfl


/-- Concrete instantiation of update_beverage_of_order_spec: the line
of quantity 3 over beverage 3 with stock 7 is updated to quantity 2,
so delta = 1 and the stock becomes 8. -/
theorem update_beverage_of_order_spec_witness :
    (stW6.orders.find? (fun o => o.id == 0) = some ordW ∧
      (1 : Int) ≤ 2 ∧
      stW6.beverage_lines.find?
        (fun l => l.order_id == 0 && l.beverage_id == 3) = some lineW6) ∧
    ((0 : Int) ≤ stW6.beverage_stock 3 + (lineW6.quantity - 2) →
      ∃ s2, router_update_beverage_of_order stW6 0 3 2 = (Outcome.ok, s2) ∧
        s2.beverage_stock 3 = stW6.beverage_stock 3 + (lineW6.quantity - 2) ∧
        (∀ b, b ≠ 3 → s2.beverage_stock b = stW6.beverage_stock b) ∧
        s2.beverage_lines.find? (fun l => l.order_id == 0 && l.beverage_id == 3)
          = some { lineW6 with quantity := 2 } ∧
        s2.pizzas = stW6.pizzas ∧ s2.orders = stW6.orders ∧
        s2.dough_stock = stW6.dough_stock ∧ s2.topping_stock = stW6.topping_stock) :=
  ⟨⟨rfl, by decide, rfl⟩,
    (update_beverage_of_order_spec stW6 0 3 2 ordW lineW6 rfl (by decide) rfl).2⟩

/-! ## Claim C8: duplicate beverage line redirects -/

/-- C8: adding a beverage line for an existing order, a positive
quantity, an existing beverage, and an already-existing line for the
same (order, beverage) pair produces a redirect and leaves the state
completely unchanged: no second line is stored and no stock count
changes. -/
theorem duplicate_beverage_line_redirect (C : Catalog) (s : State)
    (oid bid : Nat) (qty : Int)
    (ord : OrderRow) (b : Beverage) (line : BeverageLineRow)
    (hord : s.orders.find? (fun o => o.id == oid) = some ord)
    (hq : 1 ≤ qty)
    (hb : C.beverages bid = some b)
    (hline : s.beverage_lines.find?
      (fun l => l.order_id == oid && l.beverage_id == bid) = some line) :
    router_create_order_beverage C s oid bid qty = (Outcome.redirect, s) := by
  unfold router_create_order_beverage
  rw [hord]
  rw [if_neg (by omega)]
  rw [hb, hline]

/-- Concrete instantiation of duplicate_beverage_line_redirect. -/
theorem duplicate_beverage_line_redirect_witness :
    (stW8.orders.find? (fun o => o.id == 0) = some ordW ∧
      (1 : Int) ≤ 4 ∧
      catW8.beverages 3 = some bevW8 ∧
      stW8.beverage_lines.find?
        (fun l => l.order_id == 0 && l.beverage_id == 3) = some lineW8) ∧
    router_create_order_beverage catW8 stW8 0 3 4 = (Outcome.redirect, stW8) :=
  ⟨⟨rfl, by decide, rfl, rfl⟩,
    duplicate_beverage_line_redirect catW8 stW8 0 3 4 ordW bevW8 lineW8
      rfl (by decide) rfl rfl⟩

/-! ## Claim C3: cross-order pizza removal mutates stock -/

/-- C3: counterexample to the claim as stated. Calling the
delete-pizza endpoint on order 0 with the id of a pizza belonging to
order 1 does fail with NotFound and deletes no pizza row, but it does
NOT leave the stock unchanged: the endpoint increases the ingredient
stock of the pizza type before the order-scoped delete, so dough 0
goes from 5 to 6 and topping 0 from 5 to 7. -/
theorem remove_pizza_cross_order_bug :
    (router_delete_pizza_from_order stateC3 0 10).1 = Outcome.notFound ∧
    (router_delete_pizza_from_order stateC3 0 10).2.pizzas = stateC3.pizzas ∧
    stateC3.dough_stock 0 = 5 ∧
    (router_delete_pizza_from_order stateC3 0 10).2.dough_stock 0 = 6 ∧
    stateC3.topping_stock 0 = 5 ∧
    (router_delete_pizza_from_order stateC3 0 10).2.topping_stock 0 = 7 :=
  ⟨rfl, rfl, rfl, rfl, rfl, rfl⟩

/-! ## Claim C1: the stock-line consistency invariant fails -/

/-- C1: counterexample to the invariant over the operation set of the
claim. After one successful addPizza of ptPlain to order 1 (dough 0
drops from 5 to 4) and one failed removePizza of that pizza addressed
through order 0, the pizza line of order 1 still exists while the
dough counter is back at 5: the consumption of the existing line has
been restored without the line being removed, and the net stock
change is 0 instead of minus one add plus zero removes. -/
theorem stock_line_consistency_bug :
    (router_add_pizza_to_order catC1 stateC1 1 7).1 = Outcome.ok ∧
    stateC1add.dough_stock 0 = 4 ∧
    stateC1add.pizzas = [{ id := 30, order_id := 1, pizza_type := ptPlain }] ∧
    (router_delete_pizza_from_order stateC1add 0 30).1 = Outcome.notFound ∧
    (router_delete_pizza_from_order stateC1add 0 30).2.pizzas
      = [{ id := 30, order_id := 1, pizza_type := ptPlain }] ∧
    (router_delete_pizza_from_order stateC1add 0 30).2.dough_stock 0 = 5 ∧
    stateC1.dough_stock 0 = 5 :=
  ⟨rfl, rfl, rfl, rfl, rfl, rfl, rfl⟩

/-! ## Claim C2: order-copy rollback leaks consumed stock -/

/-- C2: counterexample to the all-or-nothing claim. Copying order 1
(two ptPlain pizzas) with dough stock 1: the first copy consumes the
dough, the second fails the availability check, the endpoint reports
Conflict and crud-deletes the new order (id 50), so the new order and
its pizzas are gone — but the dough consumed by the first copy is
never restored: stock is 0 although it was 1 before the copy
attempt. -/
theorem order_copy_rollback_bug :
    (router_create_order catC2 stateC2 0 (some 1)).1 = Outcome.conflict ∧
    (router_create_order catC2 stateC2 0 (some 1)).2.orders
      = [{ id := 1, status := OrderStatus.TRANSMITTED }] ∧
    (router_create_order catC2 stateC2 0 (some 1)).2.pizzas = stateC2.pizzas ∧
    stateC2.dough_stock 0 = 1 ∧
    (router_create_order catC2 stateC2 0 (some 1)).2.dough_stock 0 = 0 :=
  ⟨rfl, rfl, rfl, rfl, rfl⟩
